import Mathlib

/-!
Verification development for the SMLS OAuth core
(`src/auth/oauth_manager.py`, `src/auth/config.py`, and the callback
routes of `src/app.py`).

The Python code is shallowly embedded: pure helpers become Lean
functions; the two outbound-HTTP handlers become functions of an
explicit "world" (the provider responses) that also return the list of
HTTP requests they issued; exceptions become `Except String` values
carrying the exact message strings the Python code raises.

Randomness (`secrets.token_urlsafe(n)`) is embedded by passing the
fresh random byte draw as an explicit argument, so `generate_state`/
`generate_code_verifier` are functions of that draw.
-/

/-! ## Python base64.urlsafe_b64encode and str helpers -/

/-- The URL-safe base64 alphabet used by `base64.urlsafe_b64encode`. -/
def b64UrlAlphabet : List Char :=
  "ABCDEFGHIJKLMNOPQRSTUVWXYZabcdefghijklmnopqrstuvwxyz0123456789-_".data

/-- Character for a 6-bit group. -/
def b64Char (n : Nat) : Char := b64UrlAlphabet.getD (n % 64) 'A'

/-- The body of the base64 encoding (all characters except `=` padding):
three input bytes become four alphabet characters; a trailing remainder
of one or two bytes becomes two or three characters. -/
def b64Body : List Nat → List Char
  | [] => []
  | [b1] => [b64Char (b1 / 4), b64Char (b1 % 4 * 16)]
  | [b1, b2] => [b64Char (b1 / 4), b64Char (b1 % 4 * 16 + b2 / 16), b64Char (b2 % 16 * 4)]
  | b1 :: b2 :: b3 :: rest =>
      b64Char (b1 / 4) :: b64Char (b1 % 4 * 16 + b2 / 16) ::
      b64Char (b2 % 16 * 4 + b3 / 64) :: b64Char (b3 % 64) :: b64Body rest

/-- Number of `=` padding characters for an input of `n` bytes. -/
def b64PadLen (n : Nat) : Nat :=
  match n % 3 with
  | 0 => 0
  | 1 => 2
  | _ => 1

/-- Embedding of `base64.urlsafe_b64encode` (returning the character list
of the encoded bytes, padding included). -/
def urlsafe_b64encode (bs : List Nat) : List Char :=
  b64Body bs ++ List.replicate (b64PadLen bs.length) '='

/-- Embedding of Python `bytes.rstrip(b'=')` / `str.rstrip('=')`:
remove every trailing `=`. -/
def rstripEq (l : List Char) : List Char :=
  (l.reverse.dropWhile (· == '=')).reverse

/-- Embedding of `secrets.token_urlsafe`, as a function of the random
byte draw `os.urandom(nbytes)`: URL-safe base64 of the bytes with the
padding stripped. -/
def token_urlsafe (randomBytes : List Nat) : String :=
  ⟨rstripEq (urlsafe_b64encode randomBytes)⟩

/-- UTF-8 encoding of one character (model of CPython's `str.encode`). -/
def utf8EncodeChar (c : Char) : List Nat :=
  let n := c.toNat
  if n < 128 then [n]
  else if n < 2048 then [192 + n / 64, 128 + n % 64]
  else if n < 65536 then [224 + n / 4096, 128 + n / 64 % 64, 128 + n % 64]
  else [240 + n / 262144, 128 + n / 4096 % 64, 128 + n / 64 % 64, 128 + n % 64]

/-- Embedding of `str.encode('utf-8')` as a byte list. -/
def utf8Encode (s : String) : List Nat :=
  (s.data.map utf8EncodeChar).flatten

/-! ## SHA-256 (model of `hashlib.sha256(...).digest()`) -/

/-- Truncation to a 32-bit word. -/
def w32 (n : Nat) : Nat := n % 4294967296

/-- 32-bit rotate right. -/
def rotr32 (k x : Nat) : Nat := w32 (x / 2 ^ k + x % 2 ^ k * 2 ^ (32 - k))

/-- Logical shift right. -/
def shr32 (k x : Nat) : Nat := x / 2 ^ k

/-- Bitwise complement within 32 bits. -/
def notW (x : Nat) : Nat := x ^^^ 4294967295

def bigSigma0 (x : Nat) : Nat := rotr32 2 x ^^^ rotr32 13 x ^^^ rotr32 22 x
def bigSigma1 (x : Nat) : Nat := rotr32 6 x ^^^ rotr32 11 x ^^^ rotr32 25 x
def smallSigma0 (x : Nat) : Nat := rotr32 7 x ^^^ rotr32 18 x ^^^ shr32 3 x
def smallSigma1 (x : Nat) : Nat := rotr32 17 x ^^^ rotr32 19 x ^^^ shr32 10 x
def chFun (x y z : Nat) : Nat := (x &&& y) ^^^ (notW x &&& z)
def majFun (x y z : Nat) : Nat := (x &&& y) ^^^ (x &&& z) ^^^ (y &&& z)

/-- The 64 SHA-256 round constants (decimal form of the FIPS 180-4
words derived from the cube roots of the first 64 primes). -/
def shaK : List Nat :=
  [1116352408, 1899447441, 3049323471, 3921009573, 961987163,
   1508970993, 2453635748, 2870763221, 3624381080, 310598401,
   607225278, 1426881987, 1925078388, 2162078206, 2614888103,
   3248222580, 3835390401, 4022224774, 264347078, 604807628,
   770255983, 1249150122, 1555081692, 1996064986, 2554220882,
   2821834349, 2952996808, 3210313671, 3336571891, 3584528711,
   113926993, 338241895, 666307205, 773529912, 1294757372,
   1396182291, 1695183700, 1986661051, 2177026350, 2456956037,
   2730485921, 2820302411, 3259730800, 3345764771, 3516065817,
   3600352804, 4094571909, 275423344, 430227734, 506948616,
   659060556, 883997877, 958139571, 1322822218, 1537002063,
   1747873779, 1955562222, 2024104815, 2227730452, 2361852424,
   2428436474, 2756734187, 3204031479, 3329325298]

/-- The SHA-256 initial hash value (decimal form of the FIPS 180-4
words derived from the square roots of the first 8 primes). -/
def shaH0 : List Nat :=
  [1779033703, 3144134277, 1013904242, 2773480762, 1359893119,
   2600822924, 528734635, 1541459225]

/-- Big-endian byte decomposition, `k` bytes. -/
def toBytesBE : Nat → Nat → List Nat
  | 0, _ => []
  | k + 1, n => toBytesBE k (n / 256) ++ [n % 256]

/-- SHA-256 message padding: a `0x80` byte, zero bytes up to 56 mod 64,
then the bit length as an 8-byte big-endian integer. -/
def shaPad (m : List Nat) : List Nat :=
  let L := m.length
  let k := (120 - (L + 1) % 64) % 64
  m ++ [128] ++ List.replicate k 0 ++ toBytesBE 8 (8 * L)

/-- Group bytes into big-endian 32-bit words. -/
def bytesToWords : List Nat → List Nat
  | b0 :: b1 :: b2 :: b3 :: rest =>
      (b0 * 16777216 + b1 * 65536 + b2 * 256 + b3) :: bytesToWords rest
  | _ => []

/-- Split a word list into 16-word blocks (`fuel` bounds the recursion
and is instantiated with the list length). -/
def chunks16 : Nat → List Nat → List (List Nat)
  | 0, _ => []
  | _, [] => []
  | fuel + 1, wrd :: ws => ((wrd :: ws).take 16) :: chunks16 fuel ((wrd :: ws).drop 16)

/-- Extend a 16-word block to the 64-entry message schedule. -/
def extendSchedule : Nat → List Nat → List Nat
  | 0, ws => ws
  | fuel + 1, ws =>
      let t := ws.length
      let wt := w32 (smallSigma1 (ws.getD (t - 2) 0) + ws.getD (t - 7) 0 +
                     smallSigma0 (ws.getD (t - 15) 0) + ws.getD (t - 16) 0)
      extendSchedule fuel (ws ++ [wt])

/-- One SHA-256 compression round applied to the 8-word state. -/
def compressStep (st : List Nat) (kw : Nat × Nat) : List Nat :=
  match st with
  | [a, b, c, d, e, f, g, h] =>
      let t1 := w32 (h + bigSigma1 e + chFun e f g + kw.1 + kw.2)
      let t2 := w32 (bigSigma0 a + majFun a b c)
      [w32 (t1 + t2), a, b, c, w32 (d + t1), e, f, g]
  | other => other

/-- Process one block: run the 64 rounds and add into the chaining value. -/
def processBlock (hs : List Nat) (block : List Nat) : List Nat :=
  let ws := extendSchedule 48 block
  let st := (shaK.zip ws).foldl compressStep hs
  (hs.zip st).map (fun p => w32 (p.1 + p.2))

/-- SHA-256 of a byte string, as a 32-byte digest
(model of `hashlib.sha256(bytes).digest()`). -/
def sha256 (msg : List Nat) : List Nat :=
  let padded := shaPad msg
  let words := bytesToWords padded
  let blocks := chunks16 words.length words
  let hfinal := blocks.foldl processBlock shaH0
  (hfinal.map (toBytesBE 4)).flatten

/-! ## Python dict/string semantics helpers -/

/-- Truthiness of an optional string: `None` and the empty string are
falsy (model of `if not x` on `dict.get` results). -/
def truthy (o : Option String) : Bool :=
  match o with
  | none => false
  | some s => !(s == "")

/-- Python `x or y` on two optional strings: returns `y` when `x` is
falsy, otherwise `x`. -/
def pyOrOpt (a b : Option String) : Option String :=
  if truthy a then a else b

/-- Characters Python `str.strip()` removes. -/
def isPySpace (c : Char) : Bool :=
  c == ' ' || c == Char.ofNat 9 || c == Char.ofNat 10 ||
  c == Char.ofNat 13 || c == Char.ofNat 11 || c == Char.ofNat 12

/-- Embedding of `str.strip()`. -/
def pyStrip (s : String) : String :=
  ⟨((s.data.dropWhile isPySpace).reverse.dropWhile isPySpace).reverse⟩

/-- Embedding of Python `max(iterable, key=f)` over a nonempty list,
given as head plus tail: keeps the earliest element on ties. -/
def pyMaxBy (key : α → Nat) : α → List α → α
  | best, [] => best
  | best, x :: xs => pyMaxBy key (if key x > key best then x else best) xs

/-! ## urllib.parse.urlencode -/

/-- Hexadecimal digit (uppercase), as used by `urllib.parse.quote`. -/
def hexDigit (n : Nat) : Char := "0123456789ABCDEF".data.getD (n % 16) '0'

/-- Percent-encoding of one byte. -/
def percentByte (b : Nat) : List Char := ['%', hexDigit (b / 16), hexDigit (b % 16)]

/-- Encoding of one character under `urllib.parse.quote_plus` with the
default safe set: alphanumerics and `_.-~` kept, space becomes `+`,
anything else is percent-encoded per UTF-8 byte. -/
def quotePlusChar (c : Char) : List Char :=
  if c.isAlphanum || c == '-' || c == '_' || c == '.' || c == '~' then [c]
  else if c == ' ' then ['+']
  else ((utf8EncodeChar c).map percentByte).flatten

/-- Embedding of `urllib.parse.quote_plus`. -/
def quote_plus (s : String) : String :=
  ⟨(s.data.map quotePlusChar).flatten⟩

/-- Embedding of `urllib.parse.urlencode` on a key/value list
(a Python dict preserves insertion order). -/
def urlencode (params : List (String × String)) : String :=
  String.intercalate "&" (params.map (fun p => quote_plus p.1 ++ "=" ++ quote_plus p.2))

/-- Host of an `https://` URL: the characters after the scheme prefix up
to the first `/` or `?`. -/
def urlHost (s : String) : String :=
  ⟨(s.data.drop 8).takeWhile (fun c => !(c == '/' || c == '?'))⟩

/-! ## Config (src/auth/config.py) -/

def GOOGLE_AUTH_URL : String := "https://accounts.google.com/o/oauth2/v2/auth"
def GOOGLE_TOKEN_URL : String := "https://oauth2.googleapis.com/token"
def GOOGLE_USER_INFO_URL : String := "https://www.googleapis.com/oauth2/v2/userinfo"
def LINKEDIN_AUTH_URL : String := "https://www.linkedin.com/oauth/v2/authorization"
def LINKEDIN_TOKEN_URL : String := "https://www.linkedin.com/oauth/v2/accessToken"
def LINKEDIN_USER_INFO_URL : String := "https://api.linkedin.com/v2/userinfo"

/-- Embedding of `Config.get_google_redirect_uri`; `base_url` stands for
`RUNTIME_BASE_URL` when patched, else `BASE_URL`. -/
def get_google_redirect_uri (base_url : String) : String :=
  base_url ++ "/auth/google/callback"

/-- Embedding of `Config.get_linkedin_redirect_uri`. -/
def get_linkedin_redirect_uri (base_url : String) : String :=
  base_url ++ "/auth/linkedin/callback"

/-! ## OAuthManager security utilities -/

/-- Embedding of `OAuthManager.generate_state`; `randomBytes` is the
32-byte draw made by `secrets.token_urlsafe(32)`. -/
def generate_state (randomBytes : List Nat) : String :=
  token_urlsafe randomBytes

/-- Embedding of `OAuthManager.generate_code_verifier`; `randomBytes` is
the 96-byte draw made by `secrets.token_urlsafe(96)`. -/
def generate_code_verifier (randomBytes : List Nat) : String :=
  token_urlsafe randomBytes

/-- Embedding of `OAuthManager.generate_code_challenge`: base64url of
the SHA-256 digest of the UTF-8 encoded verifier, with `=` stripped. -/
def generate_code_challenge (code_verifier : String) : String :=
  ⟨rstripEq (urlsafe_b64encode (sha256 (utf8Encode code_verifier)))⟩

/-- The challenge as the spec words it (§4.1): SHA-256 over the UTF-8
bytes of the verifier, then base64url-encode the digest, then strip the
trailing `=` padding. -/
def specPkceChallenge (verifier : String) : String :=
  ⟨rstripEq (urlsafe_b64encode (sha256 (utf8Encode verifier)))⟩

/-! ## Authorization URL builders -/

/-- The query parameter dict built by `get_google_auth_url`
(source lines 165–175), in insertion order. -/
def googleAuthParams (client_id redirect_uri state code_challenge : String) :
    List (String × String) :=
  [("client_id", client_id),
   ("redirect_uri", redirect_uri),
   ("scope", "openid email profile"),
   ("response_type", "code"),
   ("state", state),
   ("code_challenge", code_challenge),
   ("code_challenge_method", "S256"),
   ("access_type", "offline"),
   ("prompt", "consent")]

/-- Embedding of `OAuthManager.get_google_auth_url`.  `stateArg` and
`redirect_uri` are the optional Python arguments; `rndState` and
`rndVerifier` are the random byte draws consumed by `generate_state`
and `generate_code_verifier`.  The source performs no HTTP request in
this function, hence no request list in the result. -/
def get_google_auth_url (client_id : String) (redirect_uri stateArg : Option String)
    (rndState rndVerifier : List Nat) (base_url : String) :
    String × String × String :=
  let state := if truthy stateArg then stateArg.getD "" else generate_state rndState
  let code_verifier := generate_code_verifier rndVerifier
  let code_challenge := generate_code_challenge code_verifier
  let redirect := if truthy redirect_uri then redirect_uri.getD ""
                  else get_google_redirect_uri base_url
  let auth_url := GOOGLE_AUTH_URL ++ "?" ++
    urlencode (googleAuthParams client_id redirect state code_challenge)
  (auth_url, state, code_verifier)

/-- The query parameter dict built by `get_linkedin_auth_url`
(source lines 305–313), in insertion order. -/
def linkedinAuthParams (client_id redirect_uri state code_challenge : String) :
    List (String × String) :=
  [("client_id", client_id),
   ("redirect_uri", redirect_uri),
   ("scope", "openid profile email"),
   ("response_type", "code"),
   ("state", state),
   ("code_challenge", code_challenge),
   ("code_challenge_method", "S256")]

/-- Embedding of `OAuthManager.get_linkedin_auth_url`.  Note the source
returns only `(auth_url, state)`: the generated `code_verifier` is a
local variable that is dropped. -/
def get_linkedin_auth_url (client_id : String) (redirect_uri stateArg : Option String)
    (rndState rndVerifier : List Nat) (base_url : String) :
    String × String :=
  let state := if truthy stateArg then stateArg.getD "" else generate_state rndState
  let code_verifier := generate_code_verifier rndVerifier
  let code_challenge := generate_code_challenge code_verifier
  let redirect := if truthy redirect_uri then redirect_uri.getD ""
                  else get_linkedin_redirect_uri base_url
  let auth_url := LINKEDIN_AUTH_URL ++ "?" ++
    urlencode (linkedinAuthParams client_id redirect state code_challenge)
  (auth_url, state)

/-! ## Effect model for the callback handlers

A handler computation yields an `Except String` value (the Python
exception message, or the returned dict) together with the list of HTTP
requests it issued.  `stepBind` short-circuits on an exception while
keeping the requests already issued; `stepCatch` models `try/except`. -/

/-- An outbound HTTP request issued by the code. -/
inductive Req where
  | post (url : String) (data : List (String × String)) (headers : List (String × String))
  | get (url : String) (headers : List (String × String))
deriving Repr, DecidableEq

/-- Result of a fallible, request-issuing computation. -/
abbrev Step (α : Type) := Except String α × List Req

/-- Return a value, no requests. -/
def stepPure (a : α) : Step α := (Except.ok a, [])

/-- Raise an exception, no requests. -/
def stepThrow (msg : String) : Step α := (Except.error msg, [])

/-- Sequence two computations; an exception short-circuits but the
requests already issued remain issued. -/
def stepBind (s : Step α) (k : α → Step β) : Step β :=
  match s with
  | (Except.error e, l) => (Except.error e, l)
  | (Except.ok a, l) => ((k a).1, l ++ (k a).2)

/-- Model of `try: body except Exception as e: handler(str(e))`. -/
def stepCatch (s : Step α) (handler : String → Step α) : Step α :=
  match s with
  | (Except.error e, l) => ((handler e).1, l ++ (handler e).2)
  | ok => ok

/-- A provider HTTP response with status code, raw text and parsed body. -/
structure Resp (β : Type) where
  status : Nat
  text : String
  body : β

/-- Model of `requests.post`: records the request, yields the response
the world supplies for this endpoint. -/
def httpPost (url : String) (data headers : List (String × String)) (resp : Resp β) :
    Step (Resp β) :=
  (Except.ok resp, [Req.post url data headers])

/-- Model of `requests.get`. -/
def httpGet (url : String) (headers : List (String × String)) (resp : Resp β) :
    Step (Resp β) :=
  (Except.ok resp, [Req.get url headers])

/-- Model of evaluating `logger.info(...)` inside `oauth_manager.py`:
the module never imports or defines `logger` (its imports are
`requests`, `secrets`, `hashlib`, `base64`, `urllib.parse`, `Config`),
so the name lookup raises `NameError("name 'logger' is not defined")`
before the call can happen.  The argument f-string is evaluated first
and cannot fail, so it is ignored here. -/
def loggerInfo (_msg : String) : Step Unit :=
  stepThrow "name 'logger' is not defined"

/-! ## Response body shapes (only the fields the code reads) -/

/-- Token endpoint response body: the code only reads `access_token`. -/
structure TokenBody where
  access_token : Option String

/-- Google userinfo body fields read by the code. -/
structure GoogleUserInfo where
  id : Option String
  name : Option String
  email : Option String
  picture : Option String

/-- LinkedIn userinfo body fields read by the code.  LinkedIn's OIDC
`email_verified` is a boolean claim; the code reads it as a fallback
value for `email`, so it is modelled here as the optional value the
code would pass through. -/
structure LinkedInUserInfo where
  sub : Option String
  name : Option String
  given_name : Option String
  family_name : Option String
  email : Option String
  email_verified : Option String
  picture : Option String

/-- `storageSize` object of a LinkedIn media artifact. -/
structure SizeObj where
  width : Option Nat

/-- The `com.linkedin.digitalmedia.mediaartifact.StillImage` object. -/
structure StillObj where
  storageSize : Option SizeObj

/-- The `data` object of a picture element. -/
structure MediaData where
  stillImage : Option StillObj

/-- One entry of an element's `identifiers` list. -/
structure IdentObj where
  identifier : Option String

/-- One element of `profilePicture.displayImage~.elements`. -/
structure PicElement where
  data : Option MediaData
  identifiers : Option (List IdentObj)

/-- The `displayImage~` object (`displayImageTilde` stands for the
source key `displayImage~`). -/
structure DisplayImageObj where
  elements : Option (List PicElement)

/-- The `profilePicture` object. -/
structure ProfilePictureObj where
  displayImageTilde : Option DisplayImageObj

/-- Body of the LinkedIn profile-picture endpoint response. -/
structure ProfileData where
  profilePicture : Option ProfilePictureObj

/-- The responses the outside world would return to the Google handler. -/
structure GoogleWorld where
  tokenResp : Resp TokenBody
  userResp : Resp GoogleUserInfo

/-- The responses the outside world would return to the LinkedIn
handler (token exchange, userinfo, profile-picture endpoint). -/
structure LinkedInWorld where
  tokenResp : Resp TokenBody
  userResp : Resp LinkedInUserInfo
  profileResp : Resp ProfileData

/-! ## handle_google_callback -/

/-- Embedding of `OAuthManager.handle_google_callback`'s returned dict
(and `handle_linkedin_callback`'s, which has the same keys). -/
structure UserDict where
  id : Option String
  name : Option String
  email : Option String
  picture : Option String
  provider : String
deriving Repr, DecidableEq

/-- The `token_data` dict of `handle_google_callback` (source lines
205–215): base entries plus `code_verifier` when that argument is
truthy. -/
def googleTokenData (client_id client_secret code base_url : String)
    (code_verifier : Option String) : List (String × String) :=
  [("client_id", client_id),
   ("client_secret", client_secret),
   ("code", code),
   ("grant_type", "authorization_code"),
   ("redirect_uri", get_google_redirect_uri base_url)] ++
  (if truthy code_verifier then [("code_verifier", code_verifier.getD "")] else [])

/-- Embedding of `OAuthManager.handle_google_callback`.  The `state`
argument is accepted and, as in the source, never used. -/
def handle_google_callback (code _state client_id client_secret : String)
    (code_verifier : Option String) (base_url : String) (w : GoogleWorld) :
    Step UserDict :=
  stepCatch
    (stepBind (httpPost GOOGLE_TOKEN_URL
        (googleTokenData client_id client_secret code base_url code_verifier)
        [("Content-Type", "application/x-www-form-urlencoded")] w.tokenResp)
      (fun token_response =>
        if token_response.status ≠ 200 then
          stepThrow ("Token exchange failed: " ++ token_response.text)
        else
          let access_token := token_response.body.access_token
          if !truthy access_token then
            stepThrow "No access token received from Google"
          else
            stepBind (httpGet GOOGLE_USER_INFO_URL
                [("Authorization", "Bearer " ++ access_token.getD "")] w.userResp)
              (fun user_response =>
                if user_response.status ≠ 200 then
                  stepThrow ("User info retrieval failed: " ++ user_response.text)
                else
                  let user_info := user_response.body
                  if !truthy user_info.id then
                    stepThrow "Invalid user information received from Google"
                  else
                    stepPure ⟨user_info.id, user_info.name, user_info.email,
                              user_info.picture, "google"⟩)))
    (fun e => stepThrow ("Google OAuth callback failed: " ++ e))

/-! ## handle_linkedin_callback -/

/-- The `token_data` dict of `handle_linkedin_callback` (source lines
342–348); note there is no `code_verifier` entry. -/
def linkedinTokenData (client_id client_secret code base_url : String) :
    List (String × String) :=
  [("client_id", client_id),
   ("client_secret", client_secret),
   ("code", code),
   ("grant_type", "authorization_code"),
   ("redirect_uri", get_linkedin_redirect_uri base_url)]

/-- The LinkedIn profile-picture endpoint URL (source line 393). -/
def LINKEDIN_PROFILE_PICTURE_URL : String :=
  "https://api.linkedin.com/v2/people/~:(profilePicture(displayImage~:playableStreams))"

/-- The `key` function of the `max(...)` call on source line 408:
`x.get('data', {}).get('com.linkedin...StillImage', {}).get('storageSize', {}).get('width', 0)`. -/
def elementWidth (e : PicElement) : Nat :=
  ((((e.data.bind (fun d => d.stillImage)).bind
      (fun s => s.storageSize)).bind (fun z => z.width)).getD 0)

/-- Truthiness of an optional dict value (`None`/absent is falsy; the
code never receives an empty dict here, so presence means truthy). -/
def truthyObj (o : Option α) : Bool := o.isSome

/-- Truthiness of an optional list (`if largest_image.get('identifiers')`):
absent or empty is falsy. -/
def truthyList (o : Option (List α)) : Bool :=
  match o with
  | none => false
  | some l => !l.isEmpty

/-- Embedding of the profile-picture section of
`handle_linkedin_callback` (source lines 388–426): the inner
`try`-block issues the profile-picture request, and both of its
branches then evaluate `logger.info(...)` — which raises `NameError` —
before any assignment to `picture_url`.  The `except` handler
(lines 421–425) falls back to the userinfo `picture` field; since every
reachable raise site precedes any assignment, `picture_url` is still
`None` whenever the handler runs.  The extraction logic of lines
404–413 is written out below after the failing `logger` evaluation and
is unreachable. -/
def linkedinPictureBlock (access_token : String) (user_info : LinkedInUserInfo)
    (profileResp : Resp ProfileData) : Step (Option String) :=
  stepCatch
    (stepBind (httpGet LINKEDIN_PROFILE_PICTURE_URL
        [("Authorization", "Bearer " ++ access_token),
         ("X-Restli-Protocol-Version", "2.0.0")] profileResp)
      (fun profile_response =>
        if profile_response.status == 200 then
          let profile_data := profile_response.body
          stepBind (loggerInfo "LinkedIn profile picture API response")
            (fun _ =>
              -- unreachable beyond this point (NameError above)
              if truthyObj profile_data.profilePicture &&
                 truthyObj (profile_data.profilePicture.bind
                   (fun pp => pp.displayImageTilde)) then
                let elements := ((profile_data.profilePicture.bind
                  (fun pp => pp.displayImageTilde)).bind
                    (fun di => di.elements)).getD []
                match elements with
                | [] => stepPure none
                | first :: restEls =>
                  let largest_image := pyMaxBy elementWidth first restEls
                  if truthyList largest_image.identifiers then
                    match largest_image.identifiers.getD [] with
                    | [] => stepPure none
                    | i0 :: _ =>
                      stepBind (loggerInfo "LinkedIn profile picture URL found")
                        (fun _ => stepPure i0.identifier)
                  else stepPure none
              else
                stepBind (loggerInfo "LinkedIn profile picture data not found in expected structure")
                  (fun _ => stepPure none))
        else
          stepBind (loggerInfo "LinkedIn profile picture API failed")
            (fun _ =>
              -- unreachable beyond this point (NameError above)
              if truthy user_info.picture then stepPure user_info.picture
              else stepPure none)))
    (fun _e =>
      if truthy user_info.picture then stepPure user_info.picture
      else stepPure none)

/-- The `name` expression of source line 429:
`user_info.get('name') or user_info.get('given_name', '') + ' ' + user_info.get('family_name', '')`. -/
def linkedinName (user_info : LinkedInUserInfo) : String :=
  if truthy user_info.name then user_info.name.getD ""
  else user_info.given_name.getD "" ++ " " ++ user_info.family_name.getD ""

/-- The `name` value of the returned dict (source line 434):
`name.strip() if name else 'LinkedIn User'`. -/
def linkedinDisplayName (user_info : LinkedInUserInfo) : String :=
  let name := linkedinName user_info
  if name ≠ "" then pyStrip name else "LinkedIn User"

/-- Embedding of `OAuthManager.handle_linkedin_callback`.  After the
userinfo fetch succeeds, source line 382 evaluates the undefined name
`logger`, raising `NameError`; the `sub` validation, picture lookup and
normalization below that line are written out and are unreachable.  The
`state` argument is accepted and, as in the source, never used. -/
def handle_linkedin_callback (code _state client_id client_secret : String)
    (base_url : String) (w : LinkedInWorld) : Step UserDict :=
  stepCatch
    (stepBind (httpPost LINKEDIN_TOKEN_URL
        (linkedinTokenData client_id client_secret code base_url)
        [("Content-Type", "application/x-www-form-urlencoded")] w.tokenResp)
      (fun token_response =>
        if token_response.status ≠ 200 then
          stepThrow ("Token exchange failed: " ++ token_response.text)
        else
          let access_token := token_response.body.access_token
          if !truthy access_token then
            stepThrow "No access token received from LinkedIn"
          else
            stepBind (httpGet LINKEDIN_USER_INFO_URL
                [("Authorization", "Bearer " ++ access_token.getD "")] w.userResp)
              (fun user_response =>
                if user_response.status ≠ 200 then
                  stepThrow ("User info retrieval failed: " ++ user_response.text)
                else
                  let user_info := user_response.body
                  stepBind (loggerInfo "LinkedIn userinfo response")
                    (fun _ =>
                      -- unreachable beyond this point (NameError above)
                      if !truthy user_info.sub then
                        stepThrow "Invalid user information received from LinkedIn"
                      else
                        stepBind (linkedinPictureBlock (access_token.getD "")
                            user_info w.profileResp)
                          (fun picture_url =>
                            stepPure ⟨user_info.sub,
                                      some (linkedinDisplayName user_info),
                                      pyOrOpt user_info.email user_info.email_verified,
                                      picture_url, "linkedin"⟩)))))
    (fun e => stepThrow ("LinkedIn OAuth callback failed: " ++ e))

/-! ## Callback routes (src/app.py) -/

/-- OAuth client credentials held in the caller's session
(`session['oauth_credentials'][provider]`). -/
structure Creds where
  client_id : String
  client_secret : String
  enabled : Bool

/-- The session fields the callback routes read. -/
structure SessionData where
  oauth_state : Option String
  code_verifier : Option String
  google : Option Creds
  linkedin : Option Creds

/-- The request query arguments the callback routes read. -/
structure CallbackArgs where
  state : Option String
  code : Option String
  error : Option String

/-- Outcome of a callback route: an error flash with a redirect to the
index or the setup page, or a successful login storing the user. -/
inductive RouteOutcome where
  | redirectIndex (flash : String)
  | redirectSetup (flash : String)
  | loginSuccess (user : UserDict)
deriving Repr, DecidableEq

/-- Embedding of the `/auth/google/callback` route (`google_callback`
in `src/app.py`): state presence check, state comparison, code
presence, code verifier presence, credentials check, then the OAuth
manager callback; an exception from the manager is caught by the
route's `except` and flashed.  The returned request list is every HTTP
request issued while handling the route. -/
def google_callback (sess : SessionData) (args : CallbackArgs)
    (base_url : String) (w : GoogleWorld) : RouteOutcome × List Req :=
  match sess.oauth_state with
  | none => (RouteOutcome.redirectIndex "Invalid session. Please try again.", [])
  | some expected =>
    if args.state ≠ some expected then
      (RouteOutcome.redirectIndex "Invalid state parameter. Possible CSRF attack.", [])
    else if !truthy args.code then
      let err := args.error.getD "Unknown error"
      (RouteOutcome.redirectIndex ("Authorization failed: " ++ err), [])
    else if !truthy sess.code_verifier then
      (RouteOutcome.redirectIndex "Missing code verifier. Please try again.", [])
    else
      match sess.google with
      | none =>
        (RouteOutcome.redirectSetup
          "Google OAuth credentials not found. Please setup credentials first.", [])
      | some creds =>
        if !creds.enabled then
          (RouteOutcome.redirectSetup
            "Google OAuth credentials not found. Please setup credentials first.", [])
        else
          let r := handle_google_callback (args.code.getD "") expected
            creds.client_id creds.client_secret sess.code_verifier base_url w
          match r.1 with
          | Except.error e =>
            (RouteOutcome.redirectIndex ("Error during Google authentication: " ++ e), r.2)
          | Except.ok user_info =>
            -- `if not user_info:` — a nonempty dict is truthy, branch not taken
            (RouteOutcome.loginSuccess user_info, r.2)

/-- Embedding of the `/auth/linkedin/callback` route
(`linkedin_callback` in `src/app.py`); unlike the Google route it has
no code-verifier step. -/
def linkedin_callback (sess : SessionData) (args : CallbackArgs)
    (base_url : String) (w : LinkedInWorld) : RouteOutcome × List Req :=
  match sess.oauth_state with
  | none => (RouteOutcome.redirectIndex "Invalid session. Please try again.", [])
  | some expected =>
    if args.state ≠ some expected then
      (RouteOutcome.redirectIndex "Invalid state parameter. Possible CSRF attack.", [])
    else if !truthy args.code then
      let err := args.error.getD "Unknown error"
      (RouteOutcome.redirectIndex ("Authorization failed: " ++ err), [])
    else
      match sess.linkedin with
      | none =>
        (RouteOutcome.redirectSetup
          "LinkedIn OAuth credentials not found. Please setup credentials first.", [])
      | some creds =>
        if !creds.enabled then
          (RouteOutcome.redirectSetup
            "LinkedIn OAuth credentials not found. Please setup credentials first.", [])
        else
          let r := handle_linkedin_callback (args.code.getD "") expected
            creds.client_id creds.client_secret base_url w
          match r.1 with
          | Except.error e =>
            (RouteOutcome.redirectIndex ("Error during LinkedIn authentication: " ++ e), r.2)
          | Except.ok user_info =>
            (RouteOutcome.loginSuccess user_info, r.2)

/-! ## Supporting lemmas: base64url encoding -/

/-- URL-safe character predicate (letters, digits, `-`, `_`). -/
def isUrlSafeChar (c : Char) : Bool :=
  c.isAlphanum || c == '-' || c == '_'

theorem b64Char_mem (n : Nat) : b64Char n ∈ b64UrlAlphabet := by
  have hlt : n % 64 < b64UrlAlphabet.length := by
    have : n % 64 < 64 := Nat.mod_lt _ (by norm_num)
    simpa [b64UrlAlphabet] using this
  rw [b64Char, List.getD_eq_getElem _ _ hlt]
  exact List.getElem_mem hlt

theorem b64Body_mem (bs : List Nat) : ∀ c ∈ b64Body bs, c ∈ b64UrlAlphabet := by
  induction bs using b64Body.induct with
  | case1 => intro c hc; simp [b64Body] at hc
  | case2 b1 =>
    intro c hc
    simp only [b64Body, List.mem_cons, List.mem_singleton] at hc
    rcases hc with h | h | h <;> first | (subst h; exact b64Char_mem _) | simp at h
  | case3 b1 b2 =>
    intro c hc
    simp only [b64Body, List.mem_cons, List.mem_singleton] at hc
    rcases hc with h | h | h | h <;>
      first | (subst h; exact b64Char_mem _) | simp at h
  | case4 b1 b2 b3 rest ih =>
    intro c hc
    simp only [b64Body, List.mem_cons] at hc
    rcases hc with h | h | h | h | h <;>
      first | (subst h; exact b64Char_mem _) | exact ih c h

theorem b64UrlAlphabet_ne_pad : ∀ c ∈ b64UrlAlphabet, ¬(c == '=') = true := by decide

theorem b64UrlAlphabet_urlsafe : ∀ c ∈ b64UrlAlphabet, isUrlSafeChar c = true := by decide

/-- Stripping the padding from an encoded string recovers exactly the
alphabet-only body. -/
theorem rstripEq_encode (bs : List Nat) :
    rstripEq (urlsafe_b64encode bs) = b64Body bs := by
  rw [urlsafe_b64encode, rstripEq, List.reverse_append, List.reverse_replicate]
  rw [List.dropWhile_append_of_pos (by
    intro a ha
    rcases (List.mem_replicate).1 ha with ⟨-, rfl⟩
    rfl)]
  have hdw : List.dropWhile (· == '=') (b64Body bs).reverse = (b64Body bs).reverse := by
    cases h : (b64Body bs).reverse with
    | nil => rfl
    | cons c t =>
      have hc : c ∈ b64Body bs := by
        have : c ∈ (b64Body bs).reverse := by rw [h]; exact List.mem_cons_self _ _
        simpa using this
      have : (c == '=') = false := by
        have := b64UrlAlphabet_ne_pad c (b64Body_mem bs c hc)
        simpa using this
      simp [List.dropWhile_cons, this]
  rw [hdw, List.reverse_reverse]

theorem token_urlsafe_data (bs : List Nat) :
    (token_urlsafe bs).data = b64Body bs := by
  rw [token_urlsafe, rstripEq_encode]

/-- Length of the encoded body in terms of the byte count. -/
theorem b64Body_length (bs : List Nat) :
    (b64Body bs).length =
      bs.length / 3 * 4 +
        (if bs.length % 3 = 0 then 0 else if bs.length % 3 = 1 then 2 else 3) := by
  induction bs using b64Body.induct with
  | case1 => simp [b64Body]
  | case2 b1 => simp [b64Body]
  | case3 b1 b2 => simp [b64Body]
  | case4 b1 b2 b3 rest ih =>
    simp only [b64Body, List.length_cons, ih]
    have h3 : rest.length % 3 = 0 ∨ rest.length % 3 = 1 ∨ rest.length % 3 = 2 := by omega
    have hm : (rest.length + 1 + 1 + 1) % 3 = rest.length % 3 := by omega
    rcases h3 with h | h | h <;> simp [hm, h] <;> omega

theorem token_urlsafe_length (bs : List Nat) :
    (token_urlsafe bs).length =
      bs.length / 3 * 4 +
        (if bs.length % 3 = 0 then 0 else if bs.length % 3 = 1 then 2 else 3) := by
  have : (token_urlsafe bs).length = (token_urlsafe bs).data.length := rfl
  rw [this, token_urlsafe_data, b64Body_length]

theorem token_urlsafe_chars (bs : List Nat) :
    ∀ c ∈ (token_urlsafe bs).data, isUrlSafeChar c = true := by
  intro c hc
  rw [token_urlsafe_data] at hc
  exact b64UrlAlphabet_urlsafe c (b64Body_mem bs c hc)

theorem token_urlsafe_no_pad (bs : List Nat) :
    '=' ∉ (token_urlsafe bs).data := by
  intro h
  rw [token_urlsafe_data] at h
  have := b64UrlAlphabet_ne_pad '=' (b64Body_mem bs '=' h)
  simp at this

/-- Host extraction for the Google authorize endpoint with an arbitrary
query string appended. -/
theorem urlHost_google_query (q : String) :
    urlHost (GOOGLE_AUTH_URL ++ "?" ++ q) = "accounts.google.com" := by
  rw [urlHost, String.data_append]
  rw [List.drop_append_of_le_length (by decide)]
  rw [List.takeWhile_append, if_neg (by decide)]
  decide

/-- C4: `generate_code_challenge(code_verifier)` equals the base64url
encoding of the SHA-256 digest of the verifier's UTF-8 bytes with all
trailing `=` padding removed; it is pure and deterministic (equal
verifiers yield equal challenges), and its output contains no `=` and
only URL-safe base64 characters. -/
theorem generate_code_challenge_spec (v : String) :
    generate_code_challenge v = specPkceChallenge v ∧
    (∀ v₂ : String, v = v₂ → generate_code_challenge v = generate_code_challenge v₂) ∧
    '=' ∉ (generate_code_challenge v).data ∧
    ∀ c ∈ (generate_code_challenge v).data, isUrlSafeChar c = true := by
  have hdata : (generate_code_challenge v).data = b64Body (sha256 (utf8Encode v)) := by
    show rstripEq (urlsafe_b64encode (sha256 (utf8Encode v))) = _
    exact rstripEq_encode _
  refine ⟨rfl, fun v₂ h => by rw [h], ?_, ?_⟩
  · intro h
    rw [hdata] at h
    have := b64UrlAlphabet_ne_pad '=' (b64Body_mem _ '=' h)
    simp at this
  · intro c hc
    rw [hdata] at hc
    exact b64UrlAlphabet_urlsafe c (b64Body_mem _ c hc)

/-- C9: `generate_code_verifier` (a 96-byte draw through
`secrets.token_urlsafe`) yields a URL-safe string whose encoded length
is exactly 128 characters, inside the PKCE 43–128 bound, and the draw
carries 768 ≥ 512 bits of entropy. -/
theorem generate_code_verifier_spec (rnd : List Nat) (h : rnd.length = 96) :
    (generate_code_verifier rnd).length = 128 ∧
    43 ≤ (generate_code_verifier rnd).length ∧
    (generate_code_verifier rnd).length ≤ 128 ∧
    (∀ c ∈ (generate_code_verifier rnd).data, isUrlSafeChar c = true) ∧
    512 ≤ 8 * rnd.length := by
  have hl : (generate_code_verifier rnd).length = 128 := by
    rw [generate_code_verifier, token_urlsafe_length, h]
    norm_num
  exact ⟨hl, by omega, by omega, token_urlsafe_chars rnd, by omega⟩

/-- Witness for C9 at the concrete all-zero 96-byte draw. -/
theorem generate_code_verifier_spec_witness :
    (List.replicate 96 0 : List Nat).length = 96 ∧
    (generate_code_verifier (List.replicate 96 0)).length = 128 :=
  ⟨by simp, (generate_code_verifier_spec (List.replicate 96 0) (by simp)).1⟩

/-- The `name` fallback expression is never falsy: a truthy `name` field
is a nonempty string, and the concatenation fallback always contains
the joining space. -/
theorem concat_space_ne_empty (a b : String) : a ++ " " ++ b ≠ "" := by
  intro h
  have hlen := congrArg String.length h
  rw [String.length_append, String.length_append] at hlen
  have h1 : (" " : String).length = 1 := rfl
  have h0 : ("" : String).length = 0 := rfl
  omega

theorem linkedinName_ne_empty (ui : LinkedInUserInfo) : linkedinName ui ≠ "" := by
  rw [linkedinName]
  cases hn : ui.name with
  | none =>
    simpa [truthy] using concat_space_ne_empty (ui.given_name.getD "") (ui.family_name.getD "")
  | some s =>
    by_cases hs : s = ""
    · subst hs
      simpa [truthy] using concat_space_ne_empty (ui.given_name.getD "") (ui.family_name.getD "")
    · simp [truthy, hs]

/-- C10: when the LinkedIn user-info response lacks `name`,
`given_name` and `family_name`, the computed display name is the empty
string; and for every user-info input the `'LinkedIn User'` default
branch is unreachable, because the fallback concatenation is always
truthy, so the result is always the stripped fallback expression. -/
theorem linkedin_default_name_unreachable :
    linkedinDisplayName ⟨none, none, none, none, none, none, none⟩ = "" ∧
    ∀ ui : LinkedInUserInfo,
      linkedinName ui ≠ "" ∧
      linkedinDisplayName ui = pyStrip (linkedinName ui) := by
  refine ⟨by decide, fun ui => ⟨linkedinName_ne_empty ui, ?_⟩⟩
  rw [linkedinDisplayName, if_pos (linkedinName_ne_empty ui)]

/-- C6 (amended): the profile-picture request is always issued, whether
or not the user-info response carries a `picture`; on every outcome of
that request the undefined `logger` raises before any extraction, the
inner `except` falls back to the user-info `picture`, and the step
never fails: the picture is the (truthy) user-info picture or `None`. -/
theorem linkedinPictureBlock_behavior (tok : String) (ui : LinkedInUserInfo)
    (presp : Resp ProfileData) :
    linkedinPictureBlock tok ui presp =
      (Except.ok (if truthy ui.picture then ui.picture else none),
       [Req.get LINKEDIN_PROFILE_PICTURE_URL
          [("Authorization", "Bearer " ++ tok), ("X-Restli-Protocol-Version", "2.0.0")]]) := by
  rw [linkedinPictureBlock]
  cases hs : presp.status == 200 <;>
    cases ht : truthy ui.picture <;>
      simp [stepBind, stepCatch, stepPure, stepThrow, httpGet, loggerInfo, hs, ht]

/-- C6 counterexample: with the user-info `picture` present and the
profile-picture endpoint answering 200 with a well-formed max-width
structure, the secondary request is still attempted (the claim says it
happens only when the picture is absent), and the result is the
user-info picture, not the endpoint's identifier. -/
theorem picture_request_despite_userinfo_picture :
    (⟨some "123", none, none, none, none, none, some "pic"⟩ : LinkedInUserInfo).picture
        = some "pic" ∧
    linkedinPictureBlock "tok"
        ⟨some "123", none, none, none, none, none, some "pic"⟩
        ⟨200, "", ⟨some ⟨some ⟨some [⟨some ⟨some ⟨some ⟨some 100⟩⟩⟩,
                   some [⟨some "http://img"⟩]⟩]⟩⟩⟩⟩ =
      (Except.ok (some "pic"),
       [Req.get LINKEDIN_PROFILE_PICTURE_URL
          [("Authorization", "Bearer tok"), ("X-Restli-Protocol-Version", "2.0.0")]]) :=
  ⟨rfl, rfl⟩

/-- C7: building a Google authorization URL with no explicit redirect
URI yields the configured authorize endpoint (host
`accounts.google.com`) with exactly the nine query parameters of the
source dict — `scope=openid email profile`, `response_type=code`,
`access_type=offline`, `prompt=consent`, a non-empty 43-character
`state`, `code_challenge` with `code_challenge_method=S256`, plus the
`client_id` and default `redirect_uri` — and returns the state and
verifier alongside; the builder issues no HTTP request (it is a pure
function of its inputs in this embedding, as the source performs no
network call). -/
theorem google_auth_url_spec (client_id base_url : String) (rs rv : List Nat)
    (hrs : rs.length = 32) :
    get_google_auth_url client_id none none rs rv base_url =
      (GOOGLE_AUTH_URL ++ "?" ++
         urlencode (googleAuthParams client_id (get_google_redirect_uri base_url)
           (generate_state rs) (generate_code_challenge (generate_code_verifier rv))),
       generate_state rs, generate_code_verifier rv) ∧
    urlHost (get_google_auth_url client_id none none rs rv base_url).1 =
      "accounts.google.com" ∧
    googleAuthParams client_id (get_google_redirect_uri base_url) (generate_state rs)
        (generate_code_challenge (generate_code_verifier rv)) =
      [("client_id", client_id),
       ("redirect_uri", get_google_redirect_uri base_url),
       ("scope", "openid email profile"),
       ("response_type", "code"),
       ("state", generate_state rs),
       ("code_challenge", generate_code_challenge (generate_code_verifier rv)),
       ("code_challenge_method", "S256"),
       ("access_type", "offline"),
       ("prompt", "consent")] ∧
    (generate_state rs).length = 43 ∧
    generate_state rs ≠ "" := by
  have hlen : (generate_state rs).length = 43 := by
    rw [generate_state, token_urlsafe_length, hrs]
    norm_num
  refine ⟨rfl, ?_, rfl, hlen, ?_⟩
  · exact urlHost_google_query _
  · intro h
    rw [h] at hlen
    exact absurd hlen (by decide)

/-- Witness for C7 at a concrete client id, base URL and random draws. -/
theorem google_auth_url_spec_witness :
    (List.replicate 32 7 : List Nat).length = 32 ∧
    urlHost (get_google_auth_url "abc" none none (List.replicate 32 7)
        (List.replicate 96 9) "http://localhost:5000").1 = "accounts.google.com" :=
  ⟨by simp,
   (google_auth_url_spec "abc" "http://localhost:5000" (List.replicate 32 7)
      (List.replicate 96 9) (by simp)).2.1⟩

/-- C2: the LinkedIn builder puts a `code_challenge` into the
authorization URL, yet returns only the pair `(auth_url, state)` — the
generated code verifier is discarded (the state it does return cannot
be the verifier: their lengths differ) — and the LinkedIn token
exchange never sends a `code_verifier` field, so PKCE can never be
completed for LinkedIn. -/
theorem linkedin_pkce_verifier_discarded (client_id client_secret code base_url : String)
    (rs rv : List Nat) (hrs : rs.length = 32) (hrv : rv.length = 96) :
    get_linkedin_auth_url client_id none none rs rv base_url =
      (LINKEDIN_AUTH_URL ++ "?" ++
         urlencode (linkedinAuthParams client_id (get_linkedin_redirect_uri base_url)
           (generate_state rs) (generate_code_challenge (generate_code_verifier rv))),
       generate_state rs) ∧
    ("code_challenge", generate_code_challenge (generate_code_verifier rv)) ∈
      linkedinAuthParams client_id (get_linkedin_redirect_uri base_url)
        (generate_state rs) (generate_code_challenge (generate_code_verifier rv)) ∧
    (get_linkedin_auth_url client_id none none rs rv base_url).2 ≠
      generate_code_verifier rv ∧
    (linkedinTokenData client_id client_secret code base_url).map Prod.fst =
      ["client_id", "client_secret", "code", "grant_type", "redirect_uri"] := by
  have hs43 : (generate_state rs).length = 43 := by
    rw [generate_state, token_urlsafe_length, hrs]; norm_num
  have hv128 : (generate_code_verifier rv).length = 128 := by
    rw [generate_code_verifier, token_urlsafe_length, hrv]; norm_num
  refine ⟨rfl, by simp [linkedinAuthParams], ?_, rfl⟩
  show generate_state rs ≠ generate_code_verifier rv
  intro h
  rw [h, hv128] at hs43
  exact absurd hs43 (by decide)

/-- Witness for C2 at concrete draws. -/
theorem linkedin_pkce_verifier_discarded_witness :
    (List.replicate 32 7 : List Nat).length = 32 ∧
    (List.replicate 96 9 : List Nat).length = 96 ∧
    (get_linkedin_auth_url "abc" none none (List.replicate 32 7)
        (List.replicate 96 9) "http://localhost:5000").2 ≠
      generate_code_verifier (List.replicate 96 9) :=
  ⟨by simp, by simp,
   (linkedin_pkce_verifier_discarded "abc" "secret00" "authcode" "http://localhost:5000"
      (List.replicate 32 7) (List.replicate 96 9) (by simp) (by simp)).2.2.1⟩

/-- C1: in both callback routes, when the returned `state` differs from
the expected state persisted in the session, the route stops with the
CSRF error flash and issues no HTTP request at all — in particular no
token-exchange POST. -/
theorem state_mismatch_no_token_exchange
    (sessG sessL : SessionData) (argsG argsL : CallbackArgs) (base : String)
    (wG : GoogleWorld) (wL : LinkedInWorld) (sG sL : String)
    (hG : sessG.oauth_state = some sG) (hGs : argsG.state ≠ some sG)
    (hL : sessL.oauth_state = some sL) (hLs : argsL.state ≠ some sL) :
    google_callback sessG argsG base wG =
      (RouteOutcome.redirectIndex "Invalid state parameter. Possible CSRF attack.", []) ∧
    linkedin_callback sessL argsL base wL =
      (RouteOutcome.redirectIndex "Invalid state parameter. Possible CSRF attack.", []) := by
  constructor
  · rw [google_callback, hG]
    exact if_pos hGs
  · rw [linkedin_callback, hL]
    exact if_pos hLs

/-- Witness for C1: a concrete session expecting state `"aaaa"` while
the callback carries `"bbbb"`. -/
theorem state_mismatch_no_token_exchange_witness :
    (⟨some "aaaa", some "ver", none, none⟩ : SessionData).oauth_state = some "aaaa" ∧
    (⟨some "bbbb", some "c", none⟩ : CallbackArgs).state ≠ some "aaaa" ∧
    google_callback ⟨some "aaaa", some "ver", none, none⟩ ⟨some "bbbb", some "c", none⟩
        "http://localhost:5000"
        ⟨⟨200, "", ⟨some "tok"⟩⟩, ⟨200, "", ⟨some "gid", none, none, none⟩⟩⟩ =
      (RouteOutcome.redirectIndex "Invalid state parameter. Possible CSRF attack.", []) :=
  ⟨rfl, by decide,
   (state_mismatch_no_token_exchange
      ⟨some "aaaa", some "ver", none, none⟩ ⟨some "aaaa", some "ver", none, none⟩
      ⟨some "bbbb", some "c", none⟩ ⟨some "bbbb", some "c", none⟩
      "http://localhost:5000"
      ⟨⟨200, "", ⟨some "tok"⟩⟩, ⟨200, "", ⟨some "gid", none, none, none⟩⟩⟩
      ⟨⟨200, "", ⟨some "tok"⟩⟩, ⟨200, "", ⟨some "123", none, none, none, none, none, none⟩⟩,
       ⟨200, "", ⟨none⟩⟩⟩
      "aaaa" "aaaa" rfl (by decide) rfl (by decide)).1⟩

/-- C3: whenever the LinkedIn token exchange succeeds (HTTP 200 with an
access token) and the user-info fetch succeeds (HTTP 200), the callback
raises — wrapped by the outer handler into the `NameError` message for
the undefined name `logger`, evaluated right after parsing the
user-info response — and therefore never returns an identity record. -/
theorem linkedin_callback_always_raises_name_error
    (code state client_id client_secret base_url : String) (w : LinkedInWorld)
    (htok : w.tokenResp.status = 200)
    (hacc : truthy w.tokenResp.body.access_token = true)
    (husr : w.userResp.status = 200) :
    (handle_linkedin_callback code state client_id client_secret base_url w).1 =
      Except.error "LinkedIn OAuth callback failed: name 'logger' is not defined" ∧
    ∀ u : UserDict,
      (handle_linkedin_callback code state client_id client_secret base_url w).1 ≠
        Except.ok u := by
  have hmain :
      (handle_linkedin_callback code state client_id client_secret base_url w).1 =
        Except.error "LinkedIn OAuth callback failed: name 'logger' is not defined" := by
    rw [handle_linkedin_callback]
    simp [stepCatch, stepBind, httpPost, httpGet, stepThrow, stepPure, loggerInfo,
          htok, hacc, husr]
  exact ⟨hmain, fun u h => by rw [hmain] at h; exact Except.noConfusion h⟩

/-- Witness for C3 at a concrete successful world. -/
theorem linkedin_callback_always_raises_name_error_witness :
    (⟨⟨200, "", ⟨some "tok"⟩⟩,
      ⟨200, "", ⟨some "123", some "Jane Doe", none, none, some "j@x.io", none, none⟩⟩,
      ⟨200, "", ⟨none⟩⟩⟩ : LinkedInWorld).tokenResp.status = 200 ∧
    (handle_linkedin_callback "authcode" "st" "cid12345" "sec12345"
        "http://localhost:5000"
        ⟨⟨200, "", ⟨some "tok"⟩⟩,
         ⟨200, "", ⟨some "123", some "Jane Doe", none, none, some "j@x.io", none, none⟩⟩,
         ⟨200, "", ⟨none⟩⟩⟩).1 =
      Except.error "LinkedIn OAuth callback failed: name 'logger' is not defined" :=
  ⟨rfl,
   (linkedin_callback_always_raises_name_error "authcode" "st" "cid12345" "sec12345"
      "http://localhost:5000"
      ⟨⟨200, "", ⟨some "tok"⟩⟩,
       ⟨200, "", ⟨some "123", some "Jane Doe", none, none, some "j@x.io", none, none⟩⟩,
       ⟨200, "", ⟨none⟩⟩⟩ rfl (by decide) rfl).1⟩

/-- C5: at the spec's own test input — LinkedIn token exchange and
user-info fetch succeed, `sub="123"`, `given_name="Jane"`,
`family_name="Doe"`, no `name`/`email`/`picture` — the callback does
not return the described identity: it raises the wrapped `NameError`
for the undefined `logger`.  The normalization expression written below
that line would indeed produce the display name `"Jane Doe"`. -/
theorem linkedin_jane_doe_raises :
    (handle_linkedin_callback "authcode" "st" "cid12345" "sec12345"
        "http://localhost:5000"
        ⟨⟨200, "", ⟨some "tok"⟩⟩,
         ⟨200, "", ⟨some "123", none, some "Jane", some "Doe", none, none, none⟩⟩,
         ⟨200, "", ⟨none⟩⟩⟩).1 =
      Except.error "LinkedIn OAuth callback failed: name 'logger' is not defined" ∧
    linkedinDisplayName ⟨some "123", none, some "Jane", some "Doe", none, none, none⟩ =
      "Jane Doe" ∧
    pyOrOpt (none : Option String) none = none :=
  ⟨rfl, rfl, rfl⟩

/-- Helper: a Google callback that returns an identity has passed the
`user_info.get('id')` truthiness check, so its `id` is truthy. -/
theorem google_ok_id_truthy
    (code state cid cs b : String) (cv : Option String) (w : GoogleWorld) (u : UserDict)
    (h : (handle_google_callback code state cid cs cv b w).1 = Except.ok u) :
    truthy u.id = true := by
  by_cases h1 : w.tokenResp.status = 200
  · by_cases h2 : truthy w.tokenResp.body.access_token = true
    · by_cases h3 : w.userResp.status = 200
      · by_cases h4 : truthy w.userResp.body.id = true
        · simp [handle_google_callback, stepCatch, stepBind, httpPost, httpGet,
                stepThrow, stepPure, h1, h2, h3, h4] at h
          rw [← h]
          exact h4
        · simp [handle_google_callback, stepCatch, stepBind, httpPost, httpGet,
                stepThrow, stepPure, h1, h2, h3, h4] at h
      · simp [handle_google_callback, stepCatch, stepBind, httpPost, httpGet,
              stepThrow, stepPure, h1, h2, h3] at h
    · simp [handle_google_callback, stepCatch, stepBind, httpPost, httpGet,
            stepThrow, stepPure, h1, h2] at h
  · simp [handle_google_callback, stepCatch, stepBind, httpPost, httpGet,
          stepThrow, stepPure, h1] at h

/-- Helper: the LinkedIn callback never returns an identity for any
input (every control path raises before `return`). -/
theorem linkedin_never_ok (code state cid cs b : String) (w : LinkedInWorld)
    (u : UserDict) :
    (handle_linkedin_callback code state cid cs b w).1 ≠ Except.ok u := by
  intro h
  by_cases h1 : w.tokenResp.status = 200
  · by_cases h2 : truthy w.tokenResp.body.access_token = true
    · by_cases h3 : w.userResp.status = 200
      · simp [handle_linkedin_callback, stepCatch, stepBind, httpPost, httpGet,
              stepThrow, stepPure, loggerInfo, h1, h2, h3] at h
      · simp [handle_linkedin_callback, stepCatch, stepBind, httpPost, httpGet,
              stepThrow, stepPure, h1, h2, h3] at h
    · simp [handle_linkedin_callback, stepCatch, stepBind, httpPost, httpGet,
            stepThrow, stepPure, h1, h2] at h
  · simp [handle_linkedin_callback, stepCatch, stepBind, httpPost, httpGet,
          stepThrow, stepPure, h1] at h

/-- C8: with token exchange and user-info fetch succeeding but the
subject identifier missing or empty, Google fails with the
invalid-user-information error and no identity; LinkedIn also returns
no identity, but fails with the wrapped `NameError` for the undefined
`logger`, raised before its `sub` check can run.  Every identity a
callback does return carries a truthy (non-empty) `id`. -/
theorem missing_subject_identifier_outcomes :
    (handle_google_callback "authcode" "st" "cid12345" "sec12345" (some "ver")
        "http://localhost:5000"
        ⟨⟨200, "", ⟨some "tok"⟩⟩, ⟨200, "", ⟨none, some "N", none, none⟩⟩⟩).1 =
      Except.error "Google OAuth callback failed: Invalid user information received from Google" ∧
    (handle_google_callback "authcode" "st" "cid12345" "sec12345" (some "ver")
        "http://localhost:5000"
        ⟨⟨200, "", ⟨some "tok"⟩⟩, ⟨200, "", ⟨some "", some "N", none, none⟩⟩⟩).1 =
      Except.error "Google OAuth callback failed: Invalid user information received from Google" ∧
    (handle_linkedin_callback "authcode" "st" "cid12345" "sec12345"
        "http://localhost:5000"
        ⟨⟨200, "", ⟨some "tok"⟩⟩,
         ⟨200, "", ⟨none, none, none, none, none, none, none⟩⟩,
         ⟨200, "", ⟨none⟩⟩⟩).1 =
      Except.error "LinkedIn OAuth callback failed: name 'logger' is not defined" ∧
    (∀ (code state cid cs b : String) (cv : Option String) (w : GoogleWorld) (u : UserDict),
      (handle_google_callback code state cid cs cv b w).1 = Except.ok u →
        truthy u.id = true) ∧
    (∀ (code state cid cs b : String) (w : LinkedInWorld) (u : UserDict),
      (handle_linkedin_callback code state cid cs b w).1 ≠ Except.ok u) :=
  ⟨rfl, rfl, rfl,
   fun code state cid cs b cv w u h => google_ok_id_truthy code state cid cs b cv w u h,
   fun code state cid cs b w u => linkedin_never_ok code state cid cs b w u⟩

/-- Witness for C8's universal parts: a concrete successful Google
world, discharging the success hypothesis by evaluation. -/
theorem missing_subject_identifier_outcomes_witness :
    truthy (⟨some "gid", some "N", none, none, "google"⟩ : UserDict).id = true :=
  missing_subject_identifier_outcomes.2.2.2.1 "authcode" "st" "cid12345" "sec12345"
    "http://localhost:5000" (some "ver")
    ⟨⟨200, "", ⟨some "tok"⟩⟩, ⟨200, "", ⟨some "gid", some "N", none, none⟩⟩⟩
    ⟨some "gid", some "N", none, none, "google"⟩ rfl

/-- Witness for C4's determinism conjunct at a concrete verifier. -/
theorem generate_code_challenge_spec_witness :
    generate_code_challenge "abc" = generate_code_challenge "abc" :=
  (generate_code_challenge_spec "abc").2.1 "abc" rfl

/-- Witness for C10 at the all-absent user-info record. -/
theorem linkedin_default_name_unreachable_witness :
    linkedinName ⟨none, none, none, none, none, none, none⟩ ≠ "" :=
  (linkedin_default_name_unreachable.2 ⟨none, none, none, none, none, none, none⟩).1
